import Mathlib

/-!
Shallow embedding of `dataverse_rest_api/client.py` (class `DataverseClient`).

Conventions of the embedding:
* Python `time.time()` readings are modelled as integers (`Int`); only order
  and addition matter to the verified properties.
* A Python value that may be `None` is an `Option`.
* Python truthiness of strings (`"" ` is falsy) and of numbers (`0` is falsy)
  is modelled explicitly where the source relies on it.
* A raising method is modelled as a function returning the new state paired
  with an optional error (the state component equals the input state when the
  method raises before its mutation point, exactly as in the source).
-/

/-- The in-memory Session Token fields of `DataverseClient`:
`self._token`, `self._token_type`, `self._expires_at`
(lines 59-61 initialise all three to `None`). -/
structure ClientState where
  token : Option String
  token_type : Option String
  expires_at : Option Int
deriving DecidableEq, Repr

/-- Python truthiness of an optional string: `None` and `""` are falsy. -/
def pyTruthyStr : Option String → Bool
  | none => false
  | some s => !(s = "")

/-- Python truthiness of an optional numeric timestamp: `None` and `0` are falsy. -/
def pyTruthyTime : Option Int → Bool
  | none => false
  | some t => !(t = 0)

/-- `DataverseClient._is_token_valid` (lines 64-69):
`bool(self._token and self._expires_at and time.time() < (self._expires_at - 60))`. -/
def is_token_valid (st : ClientState) (now : Int) : Bool :=
  pyTruthyStr st.token &&
    (pyTruthyTime st.expires_at && decide (now < st.expires_at.getD 0 - 60))

/-- Python `str.lower()`, as a character-wise map (the strings compared in the
source are plain ASCII). -/
def pyLower (s : String) : String := ⟨s.data.map Char.toLower⟩

/-- A truthy token-exchange result dictionary, with the three keys the client
reads; a `none` field means the key is absent from the dictionary. -/
structure TokenDict where
  access_token : Option String
  token_type : Option String
  expires_in : Option Int
deriving DecidableEq, Repr

/-- The single exception kind raised by the authentication path. -/
inductive AuthError where
  | authenticationError (msg : String)
deriving DecidableEq, Repr

/-- Lines 99-108 of `authenticate`: validation of the exchange result and the
population of the in-memory Session Token.  The argument `result` is `none`
when the Python `result` is falsy (`None` or an empty dict).
* `if not result or "access_token" not in result: raise AuthenticationError(...)`
* `if result.get("token_type", "").lower() != "bearer": raise AuthenticationError(...)`
* otherwise `self._token = result["access_token"]`,
  `self._token_type = result.get("token_type")`,
  `self._expires_at = time.time() + result.get("expires_in", 3600)`.
On a raise the state is returned unchanged, because the source raises before
any of the three assignments. -/
def finalizeResult (result : Option TokenDict) (now : Int) (st : ClientState) :
    ClientState × Option AuthError :=
  match result with
  | none => (st, some (AuthError.authenticationError "Authentication failed"))
  | some r =>
    match r.access_token with
    | none => (st, some (AuthError.authenticationError "Authentication failed"))
    | some tok =>
      if pyLower (r.token_type.getD "") = "bearer" then
        ({ token := some tok, token_type := r.token_type,
           expires_at := some (now + r.expires_in.getD 3600) }, none)
      else
        (st, some (AuthError.authenticationError "Invalid token type received"))

/-- The identity-provider collaborator (the `msal.PublicClientApplication`),
restricted to the responses the client reads.  `silentResult = none` covers
both `acquire_token_silent` returning `None` and returning a falsy dict.
Provider calls that raise are outside this model (they are uniformly wrapped
into `AuthenticationError` by lines 96-97 before any validation runs). -/
structure Provider where
  accounts : List String
  silentResult : Option TokenDict
  flowHasUserCode : Bool
  deviceResult : Option TokenDict
deriving DecidableEq, Repr

/-- Outcome of one `authenticate()` call: the resulting in-memory state, the
raised error if any, and how many times the interactive device-code flow was
initiated (`self.app.initiate_device_flow`, line 88). -/
structure AuthOutcome where
  state : ClientState
  error : Option AuthError
  interactiveFlows : Nat
deriving DecidableEq, Repr

/-- `DataverseClient.authenticate` (lines 71-108):
1. `accounts = self.app.get_accounts()`; if non-empty, try
   `acquire_token_silent` (lines 80-84);
2. `if not result:` fall back to the device-code flow (lines 87-94); a flow
   without `"user_code"` raises (wrapped by the `except` into the message
   prefix `Authentication error:`);
3. validate and populate the Session Token (`finalizeResult`). -/
def authenticate (p : Provider) (now : Int) (st : ClientState) : AuthOutcome :=
  let silent : Option TokenDict :=
    if p.accounts.isEmpty then none else p.silentResult
  match silent with
  | some r =>
    let fin := finalizeResult (some r) now st
    { state := fin.1, error := fin.2, interactiveFlows := 0 }
  | none =>
    if p.flowHasUserCode then
      let fin := finalizeResult p.deviceResult now st
      { state := fin.1, error := fin.2, interactiveFlows := 1 }
    else
      { state := st,
        error := some (AuthError.authenticationError
          "Authentication error: Failed to initiate device flow"),
        interactiveFlows := 1 }

/-- `DataverseClient._initialise_auth_context` (lines 51-62), restricted to
its in-memory effect: clear the three Session Token fields, then call
`authenticate()`. -/
def initialiseAuthContext (p : Provider) (now : Int) : AuthOutcome :=
  authenticate p now { token := none, token_type := none, expires_at := none }

/-- Counterexample to claim C1 as stated: a held Session Token whose
`access_token` is the empty string (reachable, since `authenticate` only
checks key presence) is reported invalid even though `now < expires_at - 60`,
because line 66 tests Python truthiness of `self._token`. -/
theorem token_valid_claim_counterexample :
    ({ token := some "", token_type := some "bearer", expires_at := some 1000 :
        ClientState }).token ≠ none ∧
    (0 : Int) < 1000 - 60 ∧
    is_token_valid
      { token := some "", token_type := some "bearer", expires_at := some 1000 } 0 = false := by
  decide

/-- Claim C1 (amended): for every held Session Token whose access token is a
non-empty string and whose expiry timestamp is nonzero, `_is_token_valid` is
true iff the current time is strictly below `expires_at - 60`; a held token
that is the empty string (or a zero expiry) is always reported invalid. -/
theorem token_valid_iff_margin (t : String) (tt : Option String) (e now : Int)
    (ht : t ≠ "") (he : e ≠ 0) :
    is_token_valid { token := some t, token_type := tt, expires_at := some e } now = true ↔
      now < e - 60 := by
  simp [is_token_valid, pyTruthyStr, pyTruthyTime, ht, he]

/-- Witness for C1: at `expires_at = 1000` a clock reading of `939 = expires_at - 61`
makes the token valid. -/
theorem token_valid_iff_margin_witness :
    is_token_valid
      { token := some "tok", token_type := some "bearer", expires_at := some 1000 } 939 = true ∧
    ("tok" : String) ≠ "" ∧ (1000 : Int) ≠ 0 :=
  ⟨(token_valid_iff_margin "tok" (some "bearer") 1000 939 (by decide) (by decide)).mpr
      (by decide),
   by decide, by decide⟩

/-- Counterexample to claim C2 as stated: a result whose `access_token` field
is present but empty passes validation (line 99 only tests key membership),
no AuthenticationError is raised, and the empty token is installed. -/
theorem authenticate_accepts_empty_token :
    finalizeResult
        (some { access_token := some "", token_type := some "bearer", expires_in := none })
        5 { token := none, token_type := none, expires_at := none } =
      ({ token := some "", token_type := some "bearer", expires_at := some 3605 }, none) := by
  decide

/-- Claim C2 (amended): `authenticate` raises AuthenticationError exactly when
the exchange result is falsy, lacks the `access_token` key, or its token type
(lowercased) differs from `"bearer"`; mere presence of the `access_token` key
suffices, so an empty access token is accepted. -/
theorem authenticate_rejects_iff (r : TokenDict) (now : Int) (st : ClientState) :
    ((finalizeResult (some r) now st).2.isSome = true ↔
      (r.access_token = none ∨ pyLower (r.token_type.getD "") ≠ "bearer")) ∧
    (finalizeResult none now st).2.isSome = true := by
  constructor
  · cases h : r.access_token with
    | none => simp [finalizeResult, h]
    | some tok =>
      by_cases hb : pyLower (r.token_type.getD "") = "bearer"
      · simp [finalizeResult, h, hb]
      · simp [finalizeResult, h, hb]
  · simp [finalizeResult]

/-- Counterexample to claim C3 as stated: when validation fails after a
previous successful authentication, the previously populated Session Token
fields are left in place (the source raises at lines 99-103, before the
assignments at lines 106-108), so a Session Token is still set. -/
theorem failed_auth_keeps_previous_token :
    finalizeResult
        (some { access_token := none, token_type := some "bearer", expires_in := none })
        0 { token := some "old-token", token_type := some "Bearer", expires_at := some 500 } =
      ({ token := some "old-token", token_type := some "Bearer", expires_at := some 500 },
       some (AuthError.authenticationError "Authentication failed")) ∧
    (some "old-token" : Option String) ≠ none := by
  decide

/-- Claim C3 (amended): whenever `authenticate` raises on its validation of
the exchange result, the in-memory Session Token fields are left exactly as
they were before the call: unset if they were unset (as right after
`_initialise_auth_context` cleared them), but still populated if a previous
successful authentication had populated them. -/
theorem failed_auth_state_unchanged (r : Option TokenDict) (now : Int) (st : ClientState)
    (h : (finalizeResult r now st).2.isSome = true) :
    (finalizeResult r now st).1 = st := by
  cases r with
  | none => simp [finalizeResult]
  | some d =>
    cases ha : d.access_token with
    | none => simp [finalizeResult, ha]
    | some tok =>
      by_cases hb : pyLower (d.token_type.getD "") = "bearer"
      · simp [finalizeResult, ha, hb] at h
      · simp [finalizeResult, ha, hb]

/-- Witness for C3: a bad token type leaves the previously held token in place. -/
theorem failed_auth_state_unchanged_witness :
    (finalizeResult
        (some { access_token := some "t", token_type := some "MAC", expires_in := none }) 0
        { token := some "prev", token_type := some "bearer", expires_at := some 99 }).1 =
      { token := some "prev", token_type := some "bearer", expires_at := some 99 } :=
  failed_auth_state_unchanged _ 0 _ (by decide)

/-- Claim C4 (confirmed): `authenticate` initiates the interactive device-code
flow exactly once iff there is no cached account or the silent acquisition
returns a falsy result, and never initiates it otherwise. -/
theorem interactive_flow_iff_no_silent (p : Provider) (now : Int) (st : ClientState) :
    (authenticate p now st).interactiveFlows =
      (if p.accounts.isEmpty ∨ p.silentResult = none then 1 else 0) := by
  cases hacc : p.accounts with
  | nil => cases hf : p.flowHasUserCode <;> simp [authenticate, hacc, hf]
  | cons a rest =>
    cases hs : p.silentResult with
    | none => cases hf : p.flowHasUserCode <;> simp [authenticate, hacc, hs, hf]
    | some r => simp [authenticate, hacc, hs]

/-- Claim C7 (confirmed): on every successful validation, the three Session
Token fields are replaced together and the expiry is `now + expires_in`, with
`expires_in` defaulting to 3600 when the result omits it. -/
theorem auth_success_sets_session_token (r : TokenDict) (tok : String) (now : Int)
    (st : ClientState) (ht : r.access_token = some tok)
    (hb : pyLower (r.token_type.getD "") = "bearer") :
    finalizeResult (some r) now st =
      ({ token := some tok, token_type := r.token_type,
         expires_at := some (now + r.expires_in.getD 3600) }, none) := by
  simp [finalizeResult, ht, hb]

/-- Witness for C7: a result omitting `expires_in` yields expiry `now + 3600`. -/
theorem auth_success_sets_session_token_witness :
    finalizeResult
        (some { access_token := some "tk", token_type := some "Bearer", expires_in := none })
        100 { token := none, token_type := none, expires_at := none } =
      ({ token := some "tk", token_type := some "Bearer", expires_at := some 3700 }, none) :=
  (auth_success_sets_session_token _ "tk" 100 _ (by decide) (by decide)).trans (by decide)

/-- Python `eid.split("(")[-1]` at line 161: the suffix of the header value
after its last open parenthesis (the whole string when it has none). -/
def pyAfterLastParen (l : List Char) : List Char :=
  (l.reverse.takeWhile (fun c => !(c = '('))).reverse

/-- Python `.rstrip(")")` at line 161: remove every trailing close
parenthesis, not just one. -/
def pyRstripParen (l : List Char) : List Char :=
  (l.reverse.dropWhile (fun c => c = ')')).reverse

/-- Line 161: `eid.split("(")[-1].rstrip(")")`. -/
def extractEntityId (eid : String) : String :=
  ⟨pyRstripParen (pyAfterLastParen eid.data)⟩

/-- The HTTP response to a `create` POST, restricted to the one header the
method reads; `none` means the `OData-EntityId` header is absent. -/
structure CreateResponse where
  odataEntityId : Option String
deriving DecidableEq, Repr

/-- The `RuntimeError("Missing OData-EntityId in response")` of line 160. -/
inductive CreateError where
  | missingEntityId
deriving DecidableEq, Repr

/-- `DataverseClient.create`, response handling (lines 158-161):
`eid = resp.headers.get("OData-EntityId")`; `if not eid: raise RuntimeError`
(absent header or falsy empty header value); otherwise return the extracted
id. -/
def create (resp : CreateResponse) : Except CreateError String :=
  match resp.odataEntityId with
  | none => Except.error CreateError.missingEntityId
  | some eid =>
    if eid.data.isEmpty then Except.error CreateError.missingEntityId
    else Except.ok (extractEntityId eid)

/-- The id described by the spec sentence, following the spec words for
comparison with `extractEntityId`: the text between the last open parenthesis
and the trailing close parenthesis of the header value (drop the final
character, keep what follows the last open parenthesis). -/
def specEntityIdText (eid : String) : String :=
  ⟨((eid.data.reverse.drop 1).takeWhile (fun c => !(c = '('))).reverse⟩

/-- Helper: the head of a `takeWhile` is either absent or the head of the
underlying list. -/
theorem takeWhile_head_cases (p : Char → Bool) (xs : List Char) :
    (xs.takeWhile p).head? = none ∨ (xs.takeWhile p).head? = xs.head? := by
  cases xs with
  | nil => left; rfl
  | cons c t =>
    by_cases h : p c = true
    · right; simp [List.takeWhile_cons, h]
    · left; simp [List.takeWhile_cons, h]

/-- Helper: `dropWhile` is the identity when the head fails the predicate. -/
theorem dropWhile_eq_self_of_head (q : Char → Bool) (xs : List Char)
    (h : ∀ c, xs.head? = some c → q c = false) : xs.dropWhile q = xs := by
  cases xs with
  | nil => rfl
  | cons c t => simp [List.dropWhile_cons, h c rfl]

/-- Helper: a leading close parenthesis is kept by the split step. -/
theorem takeWhile_paren_cons (t : List Char) :
    (')' :: t).takeWhile (fun c => !(c = '(')) = ')' :: t.takeWhile (fun c => !(c = '(')) := by
  simp [List.takeWhile_cons]

/-- Helper: a leading close parenthesis is removed by the rstrip step. -/
theorem dropWhile_paren_cons (t : List Char) :
    (')' :: t).dropWhile (fun c => c = ')') = t.dropWhile (fun c => c = ')') := by
  simp [List.dropWhile_cons]

/-- Helper: on a header value that ends in exactly one close parenthesis, the
code's extraction agrees with the text between the last open parenthesis and
that trailing close parenthesis. -/
theorem extract_eq_spec_text (v : String) (s : List Char)
    (hv : v.data = s ++ [')']) (hs : s.getLast? ≠ some ')') :
    extractEntityId v = specEntityIdText v := by
  have hhead : ∀ c, (s.reverse.takeWhile (fun c => !(c = '('))).head? = some c →
      (decide (c = ')')) = false := by
    intro c hc
    rcases takeWhile_head_cases (fun c => !(c = '(')) s.reverse with h | h
    · rw [h] at hc; cases hc
    · rw [h, List.head?_reverse] at hc
      have hne : c ≠ ')' := fun hcc => hs (hcc ▸ hc)
      simp [hne]
  have hrev : v.data.reverse = ')' :: s.reverse := by rw [hv]; simp
  apply String.ext
  simp only [extractEntityId, specEntityIdText, pyAfterLastParen, pyRstripParen, hrev,
    takeWhile_paren_cons, List.reverse_reverse, dropWhile_paren_cons]
  rw [dropWhile_eq_self_of_head _ _ hhead]
  simp

/-- Counterexample to claim C5 as stated: on a header value ending in two
close parentheses, `rstrip(")")` strips both, so the returned id is not the
text between the last open parenthesis and the trailing close parenthesis. -/
theorem create_id_double_paren_counterexample :
    create { odataEntityId := some "contacts(abc))" } = Except.ok "abc" ∧
    specEntityIdText "contacts(abc))" = "abc)" ∧
    ("abc" : String) ≠ "abc)" :=
  ⟨rfl, by decide, by decide⟩

/-- Claim C5 (amended): for every header value that ends in exactly one close
parenthesis, the returned id is the text between the last open parenthesis
and that trailing close parenthesis (the code strips all trailing close
parentheses, which coincides with that text exactly in this case); a response
missing the header raises an error and returns no id. -/
theorem create_id_matches_spec_text :
    (∀ (v : String) (s : List Char), v.data = s ++ [')'] → s.getLast? ≠ some ')' →
      create { odataEntityId := some v } = Except.ok (specEntityIdText v)) ∧
    create { odataEntityId := none } = Except.error CreateError.missingEntityId := by
  constructor
  · intro v s hv hs
    have hne : v.data.isEmpty = false := by rw [hv]; simp
    simp [create, hne, extract_eq_spec_text v s hv hs]
  · rfl

/-- Witness for C5: the spec's own example shape, a header ending in a single
close parenthesis. -/
theorem create_id_matches_spec_text_witness :
    create { odataEntityId := some "api/data/v9.2/contacts(123e4567-e89b)" } =
      Except.ok "123e4567-e89b" ∧
    create { odataEntityId := none } = Except.error CreateError.missingEntityId :=
  ⟨(create_id_matches_spec_text.1 "api/data/v9.2/contacts(123e4567-e89b)"
      ("api/data/v9.2/contacts(123e4567-e89b").data (by decide) (by decide)).trans
      (congrArg Except.ok (by decide)),
   create_id_matches_spec_text.2⟩

/-- An HTTP response, restricted to what `_request` and its callers read. -/
structure HttpResponse where
  status : Nat
  body : String
deriving DecidableEq, Repr

/-- `requests.HTTPError`, carrying the status code and response body that
lines 139-140 log and that the exception object exposes. -/
inductive RequestError where
  | httpError (status : Nat) (body : String)
deriving DecidableEq, Repr

/-- `requests.Response.raise_for_status`, as implemented by the requests
library: it raises `HTTPError` exactly for status codes in `[400, 600)`
(client and server errors); informational (1xx) and redirect (3xx) statuses
do not raise. -/
def raiseForStatus (r : HttpResponse) : Option RequestError :=
  if 400 ≤ r.status ∧ r.status < 600 then
    some (RequestError.httpError r.status r.body)
  else none

/-- `DataverseClient._request` (lines 133-144): issue the request, call
`resp.raise_for_status()`, log and re-raise on error, return `resp`
otherwise; the argument is the (final, post-redirect) response the transport
produced. -/
def clientRequest (r : HttpResponse) : Except RequestError HttpResponse :=
  match raiseForStatus r with
  | some e => Except.error e
  | none => Except.ok r

/-- `DataverseClient.query` (lines 146-149): GET, then `resp.json()`,
modelled as returning the response body. -/
def query (r : HttpResponse) : Except RequestError String :=
  (clientRequest r).map fun resp => resp.body

/-- `DataverseClient.delete_record` (lines 163-167): DELETE, `return True`. -/
def delete_record (r : HttpResponse) : Except RequestError Bool :=
  (clientRequest r).map fun _ => true

/-- `DataverseClient.patch_record` (lines 169-180): PATCH, `return True`. -/
def patch_record (r : HttpResponse) : Except RequestError Bool :=
  (clientRequest r).map fun _ => true

/-- Counterexample to claim C6 as stated: a `304 Not Modified` response is
not 2xx, yet `raise_for_status` does not raise for it, so `delete_record`
returns the success value `True`. -/
theorem non2xx_not_always_error :
    delete_record { status := 304, body := "" } = Except.ok true ∧
    ¬ (200 ≤ 304 ∧ 304 < 300) :=
  ⟨rfl, by decide⟩

/-- Claim C6 (amended): `query`, `patch_record` and `delete_record` raise an
HTTP error carrying the status code and response body exactly when the status
is in `[400, 600)`; `patch_record` and `delete_record` return `True` exactly
when it is not (which includes every 2xx, but also e.g. 304). -/
theorem http_error_iff_4xx_5xx (r : HttpResponse) :
    (delete_record r = Except.error (RequestError.httpError r.status r.body) ↔
      400 ≤ r.status ∧ r.status < 600) ∧
    (delete_record r = Except.ok true ↔ ¬ (400 ≤ r.status ∧ r.status < 600)) ∧
    (patch_record r = Except.error (RequestError.httpError r.status r.body) ↔
      400 ≤ r.status ∧ r.status < 600) ∧
    (patch_record r = Except.ok true ↔ ¬ (400 ≤ r.status ∧ r.status < 600)) ∧
    (query r = Except.error (RequestError.httpError r.status r.body) ↔
      400 ≤ r.status ∧ r.status < 600) := by
  by_cases h : 400 ≤ r.status ∧ r.status < 600 <;>
    simp [delete_record, patch_record, query, clientRequest, raiseForStatus, h, Except.map]

/-- The configured base URL (`self.dataverse_url`) in parsed form, after the
constructor's `rstrip("/")`: `path` is either empty or starts with a slash
and has no trailing slash. -/
structure BaseUrl where
  scheme : String
  host : String
  path : String
deriving DecidableEq, Repr

/-- The base URL string as the f-strings of the source see it. -/
def renderBase (b : BaseUrl) : String :=
  b.scheme ++ "://" ++ b.host ++ b.path

/-- `urllib.parse.urljoin(base, rel)` for a relative reference `rel` starting
with `/`: the scheme and network location of the base are kept, its path is
discarded, and `rel` becomes the whole path. -/
def urljoinAbsPath (b : BaseUrl) (rel : String) : String :=
  b.scheme ++ "://" ++ b.host ++ rel

/-- Line 147: `f"{self.dataverse_url}/api/data/v9.2/{entity_set}?{odata}"`. -/
def queryUrl (b : BaseUrl) (entity_set odata : String) : String :=
  renderBase b ++ "/api/data/v9.2/" ++ entity_set ++ "?" ++ odata

/-- Line 152: `urljoin(self.dataverse_url, f"/api/data/v9.2/{entity_set}")`. -/
def createUrl (b : BaseUrl) (entity_set : String) : String :=
  urljoinAbsPath b ("/api/data/v9.2/" ++ entity_set)

/-- Lines 164-165 and 170-171: the DELETE/PATCH record URL built through
`urljoin` with `f"/api/data/v9.2/{entity_set}({record_id})"`. -/
def recordUrl (b : BaseUrl) (entity_set record_id : String) : String :=
  urljoinAbsPath b ("/api/data/v9.2/" ++ entity_set ++ "(" ++ record_id ++ ")")

/-- Helper: a string of length zero is the empty string. -/
theorem string_eq_empty_of_length (s : String) (h : s.length = 0) : s = "" := by
  cases s with
  | mk data =>
    cases data with
    | nil => rfl
    | cons c t => simp [String.length] at h

/-- Claim C8 (confirmed): the mutating helpers target
`scheme://host/api/data/v9.2/...` (the base path is discarded by `urljoin`
with an absolute-path reference), `query` targets
`renderBase/api/data/v9.2/...` (the base path is preserved by string
concatenation), and the two prefixes coincide exactly when the base URL has
no path component. -/
theorem mutation_url_drops_base_path_iff (b : BaseUrl) (es rid odata : String) :
    (urljoinAbsPath b "/api/data/v9.2/" = renderBase b ++ "/api/data/v9.2/" ↔
      b.path = "") ∧
    createUrl b es = urljoinAbsPath b "/api/data/v9.2/" ++ es ∧
    recordUrl b es rid =
      urljoinAbsPath b "/api/data/v9.2/" ++ (es ++ "(" ++ rid ++ ")") ∧
    queryUrl b es odata = renderBase b ++ "/api/data/v9.2/" ++ es ++ "?" ++ odata ∧
    (∀ p : String,
      urljoinAbsPath { scheme := b.scheme, host := b.host, path := p } "/api/data/v9.2/" =
        urljoinAbsPath b "/api/data/v9.2/") := by
  refine ⟨⟨fun h => ?_, fun h => by simp [urljoinAbsPath, renderBase, h]⟩, ?_, ?_, ?_, ?_⟩
  · have hl := congrArg String.length h
    simp only [urljoinAbsPath, renderBase, String.length_append] at hl
    exact string_eq_empty_of_length _ (by omega)
  · apply String.ext; simp [createUrl, urljoinAbsPath, String.data_append]
  · apply String.ext; simp [recordUrl, urljoinAbsPath, String.data_append]
  · simp [queryUrl]
  · intro p; rfl

/-- Lookup in the association-list model of a Python dict. -/
def lookupHeader (k : String) : List (String × String) → Option String
  | [] => none
  | kv :: rest => if kv.1 = k then some kv.2 else lookupHeader k rest

/-- Python dict assignment `m[k] = v`: replace the value in place when the
key exists, append the binding otherwise. -/
def dictSet (m : List (String × String)) (k v : String) : List (String × String) :=
  if k ∈ m.map Prod.fst then
    m.map fun kv => if kv.1 = k then (k, v) else kv
  else m ++ [(k, v)]

/-- Python `headers.update(extra)` (line 130): assign every binding of
`extra`, in order, into `headers`. -/
def dictUpdate (m extra : List (String × String)) : List (String × String) :=
  extra.foldl (fun acc kv => dictSet acc kv.1 kv.2) m

/-- Lines 124-128: the standard header dict built on every call. -/
def defaultHeaders (token : String) : List (String × String) :=
  [("Authorization", "Bearer " ++ token),
   ("Accept", "application/json"),
   ("OData-Version", "4.0")]

/-- `DataverseClient._headers` (lines 122-131): defaults first, then the
caller-supplied `extra` dict merged in afterwards; this is also the path
`send_request` takes through `self._headers(extra_headers)` (line 199). -/
def headersWithExtra (token : String) (extra : List (String × String)) :
    List (String × String) :=
  dictUpdate (defaultHeaders token) extra

/-- Helper: assigning key `k` makes `k` look up to the new value, in the
branch where `k` already occurs. -/
theorem lookup_substMap (m : List (String × String)) (k v : String)
    (hc : k ∈ m.map Prod.fst) :
    lookupHeader k (m.map fun kv => if kv.1 = k then (k, v) else kv) = some v := by
  induction m with
  | nil => cases hc
  | cons kv rest ih =>
    by_cases h : kv.1 = k
    · simp [lookupHeader, h]
    · have hr : k ∈ rest.map Prod.fst := by
        rcases List.mem_cons.mp hc with h1 | h1
        · exact absurd h1.symm h
        · exact h1
      simp [lookupHeader, h, ih hr]

/-- Helper: assigning key `k` leaves other keys unchanged, in the branch
where `k` already occurs. -/
theorem lookup_substMap_other (m : List (String × String)) (k v k' : String)
    (h : k' ≠ k) :
    lookupHeader k' (m.map fun kv => if kv.1 = k then (k, v) else kv) =
      lookupHeader k' m := by
  induction m with
  | nil => rfl
  | cons kv rest ih =>
    by_cases hk : kv.1 = k
    · have hkk : ¬ (k = k') := fun he => h he.symm
      simp [lookupHeader, hk, hkk, ih]
    · simp [lookupHeader, hk, ih]

/-- Helper: a fresh binding appended at the end is found for its own key. -/
theorem lookup_append_single_self (m : List (String × String)) (k v : String)
    (hc : k ∉ m.map Prod.fst) : lookupHeader k (m ++ [(k, v)]) = some v := by
  induction m with
  | nil => simp [lookupHeader]
  | cons kv rest ih =>
    have h1 : ¬ kv.1 = k := fun he => hc (by simp [he])
    have h2 : k ∉ rest.map Prod.fst := fun hm => hc (by simp [hm])
    simp [lookupHeader, List.cons_append, h1, ih h2]

/-- Helper: a fresh binding appended at the end is invisible to other keys. -/
theorem lookup_append_single_other (m : List (String × String)) (k v k' : String)
    (h : k' ≠ k) : lookupHeader k' (m ++ [(k, v)]) = lookupHeader k' m := by
  induction m with
  | nil =>
    have hkk : ¬ (k = k') := fun he => h he.symm
    simp [lookupHeader, hkk]
  | cons kv rest ih =>
    by_cases hk : kv.1 = k' <;> simp [lookupHeader, List.cons_append, hk, ih]

/-- Helper: after `m[k] = v`, key `k` looks up to `v`. -/
theorem lookup_dictSet_self (m : List (String × String)) (k v : String) :
    lookupHeader k (dictSet m k v) = some v := by
  by_cases hc : k ∈ m.map Prod.fst
  · simp only [dictSet, if_pos hc]
    exact lookup_substMap m k v hc
  · simp only [dictSet, if_neg hc]
    exact lookup_append_single_self m k v hc

/-- Helper: after `m[k] = v`, every other key is unchanged. -/
theorem lookup_dictSet_other (m : List (String × String)) (k v k' : String)
    (h : k' ≠ k) : lookupHeader k' (dictSet m k v) = lookupHeader k' m := by
  by_cases hc : k ∈ m.map Prod.fst
  · simp only [dictSet, if_pos hc]
    exact lookup_substMap_other m k v k' h
  · simp only [dictSet, if_neg hc]
    exact lookup_append_single_other m k v k' h

/-- Helper: merging a dict that does not bind `k` leaves `k` unchanged. -/
theorem lookup_dictUpdate_not_mem (extra : List (String × String)) (k : String)
    (h : k ∉ extra.map Prod.fst) :
    ∀ m, lookupHeader k (dictUpdate m extra) = lookupHeader k m := by
  induction extra with
  | nil => intro m; rfl
  | cons kv rest ih =>
    intro m
    have h1 : k ≠ kv.1 := fun he => h (by simp [he])
    have h2 : k ∉ rest.map Prod.fst := fun hm => h (by simp [hm])
    show lookupHeader k (dictUpdate (dictSet m kv.1 kv.2) rest) = _
    rw [ih h2, lookup_dictSet_other m kv.1 kv.2 k h1]

/-- Helper: merging a dict that binds `k` (keys unique, as in a Python dict)
makes `k` look up to the merged value, whatever the starting map. -/
theorem lookup_dictUpdate_mem (extra : List (String × String)) (k v : String) :
    ∀ m, (extra.map Prod.fst).Nodup → (k, v) ∈ extra →
      lookupHeader k (dictUpdate m extra) = some v := by
  induction extra with
  | nil => intro m _ hmem; cases hmem
  | cons kv rest ih =>
    intro m hnd hmem
    have hnd' : kv.1 ∉ rest.map Prod.fst ∧ (rest.map Prod.fst).Nodup :=
      List.nodup_cons.mp (by simpa using hnd)
    show lookupHeader k (dictUpdate (dictSet m kv.1 kv.2) rest) = some v
    rcases List.mem_cons.mp hmem with heq | hmemr
    · have hk : kv.1 = k := by rw [← heq]
      have hv : kv.2 = v := by rw [← heq]
      have hnot : k ∉ rest.map Prod.fst := by rw [← hk]; exact hnd'.1
      rw [lookup_dictUpdate_not_mem rest k hnot, hk, hv]
      exact lookup_dictSet_self m k v
    · exact ih (dictSet m kv.1 kv.2) hnd'.2 hmemr

/-- Claim C9 (confirmed): in `_headers` (and hence in the mutating helpers
and in `send_request`), a caller-supplied header binding overrides any
standard header of the same name, because the extras are merged into the dict
after the defaults; in particular `Authorization`, `Accept` and
`OData-Version` entries in `extra` replace the default values. -/
theorem extra_headers_override_defaults (token k v : String)
    (extra : List (String × String)) (hnd : (extra.map Prod.fst).Nodup)
    (hmem : (k, v) ∈ extra) :
    lookupHeader k (headersWithExtra token extra) = some v :=
  lookup_dictUpdate_mem extra k v (defaultHeaders token) hnd hmem

/-- Witness for C9: an extra `Authorization` binding replaces the default
bearer value, which is what the dict serves without extras. -/
theorem extra_headers_override_defaults_witness :
    lookupHeader "Authorization" (headersWithExtra "tok" [("Authorization", "custom")]) =
      some "custom" ∧
    lookupHeader "Authorization" (headersWithExtra "tok" []) =
      some ("Bearer " ++ "tok") :=
  ⟨extra_headers_override_defaults "tok" "Authorization" "custom"
      [("Authorization", "custom")] (by simp) (by simp),
   rfl⟩

/-- The exception raised by Python `os.remove` on a missing file. -/
inductive OsError where
  | fileNotFound (path : String)
deriving DecidableEq, Repr

/-- The local filesystem, as the set of existing file paths. -/
structure FileSystem where
  files : List String
deriving DecidableEq, Repr

/-- Python `os.remove(path)`: delete the file, raising `FileNotFoundError`
when no file exists at `path`. -/
def osRemove (fs : FileSystem) (path : String) : Except OsError FileSystem :=
  if path ∈ fs.files then Except.ok { files := fs.files.erase path }
  else Except.error (OsError.fileNotFound path)

/-- `DataverseClient.reset` (lines 47-49): `os.remove(self.cache_path)` with
no existence guard, then `self._initialise_auth_context()`.  When the removal
raises, the reinitialisation (and the `authenticate()` it runs) is never
reached, so no `AuthOutcome` is produced. -/
def reset (fs : FileSystem) (cachePath : String) (p : Provider) (now : Int) :
    Except OsError (FileSystem × AuthOutcome) :=
  match osRemove fs cachePath with
  | Except.error e => Except.error e
  | Except.ok fsNew => Except.ok (fsNew, initialiseAuthContext p now)

/-- Claim C10 (confirmed): `reset` deletes the cache file unconditionally;
when the file is absent it raises file-not-found and never reaches
reinitialisation or re-authentication, and when present it removes the file
and then reinitialises (clearing the Session Token and authenticating). -/
theorem reset_requires_cache_file (fs : FileSystem) (cachePath : String)
    (p : Provider) (now : Int) :
    (cachePath ∉ fs.files →
      reset fs cachePath p now = Except.error (OsError.fileNotFound cachePath)) ∧
    (cachePath ∈ fs.files →
      reset fs cachePath p now =
        Except.ok ({ files := fs.files.erase cachePath },
          initialiseAuthContext p now)) := by
  constructor <;> intro h <;> simp [reset, osRemove, h]

/-- Witness for C10: a second consecutive `reset` against an empty filesystem
(the cache file already gone) raises file-not-found. -/
theorem reset_requires_cache_file_witness :
    reset { files := [] } "cache.bin"
        { accounts := [], silentResult := none, flowHasUserCode := true,
          deviceResult := none } 0 =
      Except.error (OsError.fileNotFound "cache.bin") :=
  (reset_requires_cache_file { files := [] } "cache.bin"
      { accounts := [], silentResult := none, flowHasUserCode := true,
        deviceResult := none } 0).1 (by simp)
